import Mathlib

/-!
Verification development for the movie-backend catalog core
(`core/utils.py`, `core/views.py`, `core/models.py`, `core/permissions.py`).

The Python source is shallowly embedded: the relational store is a record of
lists of rows, the Redis-style cache is an association list, the upstream
TMDb provider is an oracle argument (its parsed-JSON response, `none` being
the unavailable signal produced by `_make_tmdb_request`), and each view is a
pure state-passing function that additionally reports how many provider
calls and store reads it performed.  Machine floats (`popularity`,
`vote_average`) are modelled as rationals: the code only stores and compares
them.  Timestamps (`created_at`, `updated_at`) are not modelled: no claim
depends on them beyond `updated_at` being exempt from idempotence.
-/

namespace MovieApp

/-- One entry of the `genres` list that TMDb detail endpoints return
(a dict with `id` and `name`). -/
structure GenrePair where
  id : Int
  name : String
deriving Repr, DecidableEq

/-- A parsed TMDb movie payload as consumed by
`save_movie_and_genres_to_db`.  Every field the function reads with `.get`
is optional; `genre_ids` and `genres` default to `[]` exactly as
`.get("genre_ids", [])` / `.get("genres", [])` do. -/
structure TmdbMovieData where
  id : Option Int
  title : Option String
  overview : Option String
  poster_path : Option String
  release_date : Option String
  popularity : Option Rat
  vote_average : Option Rat
  genre_ids : List Int
  genres : List GenrePair
deriving Repr, DecidableEq

/-- A row of the `Genre` table (`core/models.py`): TMDb genre id as primary
key, plus a name. -/
structure GenreRow where
  id : Int
  name : String
deriving Repr, DecidableEq

/-- A row of the `Movie` table (`core/models.py`).  `internal_id` models the
locally generated UUID primary key (as a `Nat` drawn from a counter);
`genres` models the many-to-many link set for this row, kept with
set-semantics by `addGenreLinks` just as Django `m2m.add` only inserts
missing links. -/
structure MovieRow where
  internal_id : Nat
  tmdb_id : Int
  title : String
  overview : String
  poster_path : String
  release_date : Option String
  popularity : Rat
  vote_average : Rat
  genres : List Int
deriving Repr, DecidableEq

/-- The interaction type enum of `UserMovieInteraction`. -/
inductive InteractionType where
  | liked
  | bookmarked
  | watched
deriving Repr, DecidableEq

/-- A row of the `UserMovieInteraction` table: user id, movie internal id,
interaction type. -/
structure Interaction where
  user : Nat
  movie : Nat
  itype : InteractionType
deriving Repr, DecidableEq

/-- The durable relational store: `Movie` rows, `Genre` rows,
`UserMovieInteraction` rows, and the counter supplying fresh internal ids
(modelling `uuid4` generation). -/
structure DB where
  movies : List MovieRow
  genres : List GenreRow
  interactions : List Interaction
  nextId : Nat
deriving Repr, DecidableEq

/-- Django `m2m.add(*items)`: link each item not already linked, keeping
existing links and order.  The resulting membership is the union. -/
def addGenreLinks (cur toAdd : List Int) : List Int :=
  toAdd.foldl (fun acc g => if g ∈ acc then acc else acc ++ [g]) cur

/-- The `or None` applied to the fetched release date: Python `or` maps the
falsy empty string (and a missing key) to `None`. -/
def normReleaseDate (r : Option String) : Option String :=
  match r with
  | some s => if s = "" then none else some s
  | none => none

/-- The genre-id derivation of `save_movie_and_genres_to_db`: list endpoints
supply `genre_ids`; when that is empty (or missing) and a truthy `genres`
list of dicts is present, its ids are extracted instead. -/
def derivedGenreIds (d : TmdbMovieData) : List Int :=
  if d.genre_ids.isEmpty && !d.genres.isEmpty then
    d.genres.map (fun g => g.id)
  else
    d.genre_ids

/-- `Genre.objects.filter(id__in=gids)` projected to ids: the ids among
`gids` that exist as `Genre` rows, in table order.  Only these are linked;
unknown ids are silently skipped and no placeholder row is invented. -/
def knownGenreLinks (db : DB) (gids : List Int) : List Int :=
  (db.genres.filter (fun g => decide (g.id ∈ gids))).map (fun g => g.id)

/-- The `defaults=` dict of `Movie.objects.update_or_create`: overwrite the
scalar fields from the payload with the source defaults
(No Title Provided, empty strings, `None`, `0.0`, `0.0`). -/
def applyFields (d : TmdbMovieData) (m : MovieRow) : MovieRow :=
  { m with
    title := d.title.getD "No Title Provided"
    overview := d.overview.getD ""
    poster_path := d.poster_path.getD ""
    release_date := normReleaseDate d.release_date
    popularity := d.popularity.getD 0
    vote_average := d.vote_average.getD 0 }

/-- `save_movie_and_genres_to_db(tmdb_movie_data)` (`core/utils.py`).
Returns the produced `Movie` row (or `none`) together with the new store.
The guard mirrors Python truthiness: an absent payload, an absent `id`
field, or the falsy id `0` all fail fast with no write.  `update_or_create`
is keyed by `tmdb_id`: an existing row is updated in place (the store
enforces `tmdb_id` uniqueness, so replacing every matching row touches just
that one), otherwise a new row is appended with a fresh internal id.
Afterwards `movie.genres.add(*Genre.objects.filter(id__in=...))` links the
known genres, guarded by the truthiness of the derived id list. -/
def save (input : Option TmdbMovieData) (db : DB) : Option MovieRow × DB :=
  match input with
  | none => (none, db)
  | some d =>
    match d.id with
    | none => (none, db)
    | some tid =>
      if tid = 0 then (none, db)
      else
        let gids := derivedGenreIds d
        let links := knownGenreLinks db gids
        match db.movies.find? (fun m => m.tmdb_id == tid) with
        | some m =>
          let m1 := applyFields d m
          let m2 := if gids.isEmpty then m1 else { m1 with genres := addGenreLinks m1.genres links }
          (some m2, { db with movies := db.movies.map (fun x => if x.tmdb_id == tid then m2 else x) })
        | none =>
          let m1 := applyFields d
            { internal_id := db.nextId, tmdb_id := tid, title := "", overview := ""
              poster_path := "", release_date := none, popularity := 0, vote_average := 0
              genres := [] }
          let m2 := if gids.isEmpty then m1 else { m1 with genres := addGenreLinks m1.genres links }
          (some m2, { db with movies := db.movies ++ [m2], nextId := db.nextId + 1 })

/-- The storage-level invariant enforced by the `unique=True` constraint
on `Movie.tmdb_id`: at most one row per external id. -/
def WF (db : DB) : Prop :=
  (db.movies.map (fun m => m.tmdb_id)).Nodup

instance (db : DB) : Decidable (WF db) := by
  unfold WF
  infer_instance

-- ### Lemmas about `addGenreLinks`

theorem mem_addGenreLinks (xs : List Int) :
    ∀ (cur : List Int) (a : Int), a ∈ addGenreLinks cur xs ↔ a ∈ cur ∨ a ∈ xs := by
  induction xs with
  | nil => intro cur a; simp [addGenreLinks]
  | cons x xs ih =>
    intro cur a
    show a ∈ addGenreLinks (if x ∈ cur then cur else cur ++ [x]) xs ↔ _
    rw [ih]
    by_cases hx : x ∈ cur
    · simp only [if_pos hx, List.mem_cons]
      constructor
      · rintro (h | h)
        · exact Or.inl h
        · exact Or.inr (Or.inr h)
      · rintro (h | h | h)
        · exact Or.inl h
        · exact Or.inl (h ▸ hx)
        · exact Or.inr h
    · simp only [if_neg hx, List.mem_append, List.mem_singleton, List.mem_cons]
      tauto

theorem addGenreLinks_eq_self (xs : List Int) :
    ∀ (cur : List Int), (∀ a ∈ xs, a ∈ cur) → addGenreLinks cur xs = cur := by
  induction xs with
  | nil => intro cur _; rfl
  | cons x xs ih =>
    intro cur h
    show addGenreLinks (if x ∈ cur then cur else cur ++ [x]) xs = cur
    rw [if_pos (h x (List.mem_cons_self x xs))]
    exact ih cur (fun a ha => h a (List.mem_cons_of_mem x ha))

theorem addGenreLinks_idem (cur xs : List Int) :
    addGenreLinks (addGenreLinks cur xs) xs = addGenreLinks cur xs :=
  addGenreLinks_eq_self xs _ (fun a ha => (mem_addGenreLinks xs cur a).2 (Or.inr ha))

-- ### Lemmas about `applyFields`

theorem applyFields_applyFields (d : TmdbMovieData) (m : MovieRow) :
    applyFields d (applyFields d m) = applyFields d m := rfl

theorem applyFields_tmdb_id (d : TmdbMovieData) (m : MovieRow) :
    (applyFields d m).tmdb_id = m.tmdb_id := rfl

theorem applyFields_internal_id (d : TmdbMovieData) (m : MovieRow) :
    (applyFields d m).internal_id = m.internal_id := rfl

theorem applyFields_genres (d : TmdbMovieData) (m : MovieRow) :
    (applyFields d m).genres = m.genres := rfl

theorem applyFields_of_genres (d : TmdbMovieData) (m : MovieRow) (G : List Int) :
    applyFields d { applyFields d m with genres := G } = { applyFields d m with genres := G } := rfl

-- ### Characterisation of the two `update_or_create` branches of `save`

/-- The row produced for an existing row `m` (or a fresh blank row):
scalar fields overwritten, then the known payload genres linked when the
derived id list is truthy. -/
def updRow (d : TmdbMovieData) (db : DB) (m : MovieRow) : MovieRow :=
  let m1 := applyFields d m
  if (derivedGenreIds d).isEmpty then m1
  else { m1 with genres := addGenreLinks m1.genres (knownGenreLinks db (derivedGenreIds d)) }

/-- The blank row that `update_or_create` creates before applying
`defaults`: fresh internal id from the counter, the external id of the payload,
no genre links yet. -/
def freshRow (db : DB) (tid : Int) : MovieRow :=
  { internal_id := db.nextId, tmdb_id := tid, title := "", overview := ""
    poster_path := "", release_date := none, popularity := 0, vote_average := 0
    genres := [] }

theorem updRow_tmdb_id (d : TmdbMovieData) (db : DB) (m : MovieRow) :
    (updRow d db m).tmdb_id = m.tmdb_id := by
  unfold updRow; split <;> rfl

theorem updRow_internal_id (d : TmdbMovieData) (db : DB) (m : MovieRow) :
    (updRow d db m).internal_id = m.internal_id := by
  unfold updRow; split <;> rfl

theorem save_found (d : TmdbMovieData) (db : DB) (tid : Int) (m : MovieRow)
    (hid : d.id = some tid) (h0 : ¬ tid = 0)
    (hfind : db.movies.find? (fun x => x.tmdb_id == tid) = some m) :
    save (some d) db =
      (some (updRow d db m),
       { db with movies := db.movies.map (fun x => if x.tmdb_id == tid then updRow d db m else x) }) := by
  simp only [save, hid, if_neg h0, hfind, updRow]

theorem save_notfound (d : TmdbMovieData) (db : DB) (tid : Int)
    (hid : d.id = some tid) (h0 : ¬ tid = 0)
    (hfind : db.movies.find? (fun x => x.tmdb_id == tid) = none) :
    save (some d) db =
      (some (updRow d db (freshRow db tid)),
       { db with movies := db.movies ++ [updRow d db (freshRow db tid)]
                 nextId := db.nextId + 1 }) := by
  simp only [save, hid, if_neg h0, hfind, updRow, freshRow]

/-- Re-applying the row update with the same payload (over a store with the
same genre table) is a fixed point: the scalar overwrites and the genre-link
union are both idempotent. -/
theorem updRow_idem (d : TmdbMovieData) (db db2 : DB) (m : MovieRow)
    (hg : db2.genres = db.genres) :
    updRow d db2 (updRow d db m) = updRow d db m := by
  have hk : knownGenreLinks db2 (derivedGenreIds d) = knownGenreLinks db (derivedGenreIds d) := by
    unfold knownGenreLinks; rw [hg]
  unfold updRow
  by_cases hE : (derivedGenreIds d).isEmpty
  · simp only [if_pos hE]
    exact applyFields_applyFields d m
  · simp only [if_neg hE, hk, applyFields_of_genres, applyFields_genres]
    rw [addGenreLinks_idem]

/-- Specialisation of `updRow_idem` to a store whose movie list and id
counter changed but whose genre table did not — the shape of the store an
upsert itself produces. -/
theorem updRow_idem2 (d : TmdbMovieData) (db : DB) (mov : List MovieRow) (nid : Nat)
    (m : MovieRow) :
    updRow d { db with movies := mov, nextId := nid } (updRow d db m) = updRow d db m :=
  updRow_idem d db { db with movies := mov, nextId := nid } m rfl

-- ### List lemmas for the replace-in-place map used by the found branch

theorem eq_row_of_mem (tid : Int) :
    ∀ (l : List MovieRow) (m x : MovieRow),
      (l.map (fun r => r.tmdb_id)).Nodup →
      l.find? (fun r => r.tmdb_id == tid) = some m →
      x ∈ l → x.tmdb_id = tid → x = m := by
  intro l
  induction l with
  | nil => intro m x _ hf; simp at hf
  | cons y ys ih =>
    intro m x hnd hf hx hxt
    rw [List.map_cons, List.nodup_cons] at hnd
    by_cases hy : y.tmdb_id = tid
    · rw [List.find?_cons_of_pos _ (by simp [hy])] at hf
      rcases List.mem_cons.mp hx with rfl | hx'
      · exact Option.some.inj hf
      · exfalso
        apply hnd.1
        have hmem : x.tmdb_id ∈ List.map (fun r => r.tmdb_id) ys :=
          List.mem_map_of_mem (fun r => r.tmdb_id) hx'
        rw [hxt] at hmem
        rw [hy]
        exact hmem
    · rw [List.find?_cons_of_neg _ (by simp [hy])] at hf
      rcases List.mem_cons.mp hx with rfl | hx'
      · exact absurd hxt hy
      · exact ih m x hnd.2 hf hx' hxt

theorem find?_replace (tid : Int) (u : MovieRow) (hu : u.tmdb_id = tid) :
    ∀ (l : List MovieRow) (m : MovieRow),
      l.find? (fun x => x.tmdb_id == tid) = some m →
      (l.map (fun x => if x.tmdb_id == tid then u else x)).find?
          (fun x => x.tmdb_id == tid) = some u := by
  intro l
  induction l with
  | nil => intro m hf; simp at hf
  | cons y ys ih =>
    intro m hf
    by_cases hy : y.tmdb_id = tid
    · simp only [List.map_cons, if_pos (by exact_mod_cast (beq_iff_eq ..).mpr hy)]
      exact List.find?_cons_of_pos _ (by simp [hu])
    · rw [List.find?_cons_of_neg _ (by simp [hy])] at hf
      simp only [List.map_cons, if_neg (by simpa using hy)]
      rw [List.find?_cons_of_neg _ (by simp [hy])]
      exact ih m hf

theorem map_replace_of_none (tid : Int) (u : MovieRow) (l : List MovieRow)
    (h : l.find? (fun x => x.tmdb_id == tid) = none) :
    l.map (fun x => if x.tmdb_id == tid then u else x) = l := by
  have h' := List.find?_eq_none.mp h
  have : ∀ x ∈ l, (if x.tmdb_id == tid then u else x) = x := by
    intro x hx
    exact if_neg (h' x hx)
  calc l.map (fun x => if x.tmdb_id == tid then u else x)
      = l.map id := List.map_congr_left this
    _ = l := List.map_id l

theorem map_replace_tmdb (tid : Int) (u : MovieRow) (hu : u.tmdb_id = tid)
    (l : List MovieRow) :
    (l.map (fun x => if x.tmdb_id == tid then u else x)).map (fun x => x.tmdb_id)
      = l.map (fun x => x.tmdb_id) := by
  rw [List.map_map]
  apply List.map_congr_left
  intro x _
  by_cases h : x.tmdb_id = tid
  · simp [Function.comp, h, hu]
  · simp [Function.comp, h]

theorem replace_map_idem (tid : Int) (u : MovieRow) (l : List MovieRow) :
    (l.map (fun x => if x.tmdb_id == tid then u else x)).map
        (fun x => if x.tmdb_id == tid then u else x)
      = l.map (fun x => if x.tmdb_id == tid then u else x) := by
  rw [List.map_map]
  apply List.map_congr_left
  intro x _
  by_cases h : x.tmdb_id = tid
  · simp [Function.comp, h, ite_self]
  · simp [Function.comp, h]

theorem countP_replace (tid : Int) (u : MovieRow) (hu : u.tmdb_id = tid)
    (l : List MovieRow) :
    (l.map (fun x => if x.tmdb_id == tid then u else x)).countP
        (fun x => x.tmdb_id == tid)
      = l.countP (fun x => x.tmdb_id == tid) := by
  rw [List.countP_map]
  apply List.countP_congr
  intro x _
  by_cases h : x.tmdb_id = tid
  · simp [Function.comp, h, hu]
  · simp [Function.comp, h]

theorem countP_eq_one_of_find? (tid : Int) :
    ∀ (l : List MovieRow) (m : MovieRow),
      (l.map (fun x => x.tmdb_id)).Nodup →
      l.find? (fun x => x.tmdb_id == tid) = some m →
      l.countP (fun x => x.tmdb_id == tid) = 1 := by
  intro l
  induction l with
  | nil => intro m _ hf; simp at hf
  | cons y ys ih =>
    intro m hnd hf
    rw [List.map_cons, List.nodup_cons] at hnd
    by_cases hy : y.tmdb_id = tid
    · rw [List.countP_cons_of_pos _ _ (by simp [hy])]
      have hz : ys.countP (fun x => x.tmdb_id == tid) = 0 := by
        rw [List.countP_eq_zero]
        intro a ha hpa
        have : a.tmdb_id = tid := by simpa using hpa
        exact hnd.1 (hy ▸ this ▸ List.mem_map_of_mem (fun x => x.tmdb_id) ha)
      omega
    · rw [List.countP_cons_of_neg _ _ (by simp [hy])]
      rw [List.find?_cons_of_neg _ (by simp [hy])] at hf
      exact ih m hnd.2 hf

-- ### Genre-link membership lemmas

theorem mem_knownGenreLinks (db : DB) (gids : List Int) (g : Int) :
    g ∈ knownGenreLinks db gids ↔
      (g ∈ db.genres.map (fun x => x.id) ∧ g ∈ gids) := by
  unfold knownGenreLinks
  simp only [List.mem_map, List.mem_filter, decide_eq_true_eq]
  constructor
  · rintro ⟨a, ⟨ha, hag⟩, rfl⟩
    exact ⟨⟨a, ha, rfl⟩, hag⟩
  · rintro ⟨⟨a, ha, rfl⟩, hg⟩
    exact ⟨a, ⟨ha, hg⟩, rfl⟩

theorem mem_updRow_genres (d : TmdbMovieData) (db : DB) (m : MovieRow) (g : Int) :
    g ∈ (updRow d db m).genres ↔
      g ∈ m.genres ∨ (g ∈ derivedGenreIds d ∧ g ∈ db.genres.map (fun x => x.id)) := by
  unfold updRow
  by_cases hE : (derivedGenreIds d).isEmpty
  · rw [if_pos hE]
    have hnil : derivedGenreIds d = [] := List.isEmpty_iff.mp hE
    rw [applyFields_genres, hnil]
    simp
  · rw [if_neg hE]
    show g ∈ addGenreLinks (applyFields d m).genres (knownGenreLinks db (derivedGenreIds d)) ↔ _
    rw [mem_addGenreLinks, applyFields_genres, mem_knownGenreLinks]
    tauto

/-- The genre set already linked to external id `tid` before an upsert:
the link set of the found row, or empty when no row exists. -/
def prevLinkedGenres (db : DB) (tid : Int) : List Int :=
  match db.movies.find? (fun m => m.tmdb_id == tid) with
  | some m => m.genres
  | none => []

-- ### Claim theorems for the upsert

/-- C1: Movie upsert is idempotent.  For a payload with a usable external
id and a store satisfying the `tmdb_id`-uniqueness constraint, applying
`save_movie_and_genres_to_db` a second time with the identical payload is a
no-op: it returns the same row and leaves the whole store (movies, genres,
links, id counter) unchanged — the model carries no `updated_at`, the one
field exempted by the spec — and after the first application exactly one
`Movie` row carries that external id. -/
theorem upsert_idempotent (d : TmdbMovieData) (db : DB) (tid : Int)
    (hwf : WF db) (hid : d.id = some tid) (h0 : ¬ tid = 0) :
    save (some d) ((save (some d) db).2) = save (some d) db ∧
    (save (some d) db).2.movies.countP (fun m => m.tmdb_id == tid) = 1 := by
  cases hfind : db.movies.find? (fun x => x.tmdb_id == tid) with
  | some m =>
    have hm : m.tmdb_id = tid := by
      have := List.find?_some hfind
      simpa using this
    have hu : (updRow d db m).tmdb_id = tid := by rw [updRow_tmdb_id]; exact hm
    have h1 := save_found d db tid m hid h0 hfind
    rw [h1]
    constructor
    · have hfind2 :
          (db.movies.map (fun x => if x.tmdb_id == tid then updRow d db m else x)).find?
            (fun x => x.tmdb_id == tid) = some (updRow d db m) :=
        find?_replace tid (updRow d db m) hu db.movies m hfind
      have h2 := save_found d
        { db with movies := db.movies.map (fun x => if x.tmdb_id == tid then updRow d db m else x) }
        tid (updRow d db m) hid h0 hfind2
      rw [show ((some (updRow d db m),
          ({ db with movies := db.movies.map (fun x => if x.tmdb_id == tid then updRow d db m else x) } : DB)) :
          Option MovieRow × DB).2 =
          ({ db with movies := db.movies.map (fun x => if x.tmdb_id == tid then updRow d db m else x) } : DB) from rfl]
      rw [h2]
      rw [updRow_idem2 d db _ _ m]
      rw [show ({ db with movies := db.movies.map (fun x => if x.tmdb_id == tid then updRow d db m else x) } : DB).movies =
            db.movies.map (fun x => if x.tmdb_id == tid then updRow d db m else x) from rfl]
      rw [replace_map_idem tid (updRow d db m) db.movies]
    · rw [show ((some (updRow d db m),
          ({ db with movies := db.movies.map (fun x => if x.tmdb_id == tid then updRow d db m else x) } : DB)) :
          Option MovieRow × DB).2.movies =
          db.movies.map (fun x => if x.tmdb_id == tid then updRow d db m else x) from rfl]
      rw [countP_replace tid (updRow d db m) hu db.movies]
      exact countP_eq_one_of_find? tid db.movies m hwf hfind
  | none =>
    have hw : (updRow d db (freshRow db tid)).tmdb_id = tid := by
      rw [updRow_tmdb_id]; rfl
    have h1 := save_notfound d db tid hid h0 hfind
    rw [h1]
    constructor
    · have hfind2 :
          (db.movies ++ [updRow d db (freshRow db tid)]).find? (fun x => x.tmdb_id == tid) =
            some (updRow d db (freshRow db tid)) := by
        rw [List.find?_append, hfind]
        rw [List.find?_cons_of_pos _ (by simp [hw])]
        rfl
      have h2 := save_found d
        { db with movies := db.movies ++ [updRow d db (freshRow db tid)], nextId := db.nextId + 1 }
        tid (updRow d db (freshRow db tid)) hid h0 hfind2
      rw [show ((some (updRow d db (freshRow db tid)),
          ({ db with movies := db.movies ++ [updRow d db (freshRow db tid)], nextId := db.nextId + 1 } : DB)) :
          Option MovieRow × DB).2 =
          ({ db with movies := db.movies ++ [updRow d db (freshRow db tid)], nextId := db.nextId + 1 } : DB) from rfl]
      rw [h2]
      rw [updRow_idem2 d db _ _ (freshRow db tid)]
      rw [show ({ db with movies := db.movies ++ [updRow d db (freshRow db tid)], nextId := db.nextId + 1 } : DB).movies =
            db.movies ++ [updRow d db (freshRow db tid)] from rfl]
      rw [List.map_append, map_replace_of_none tid _ db.movies hfind]
      rw [show List.map (fun x => if x.tmdb_id == tid then updRow d db (freshRow db tid) else x)
            [updRow d db (freshRow db tid)] =
          [if (updRow d db (freshRow db tid)).tmdb_id == tid then updRow d db (freshRow db tid)
            else updRow d db (freshRow db tid)] from rfl]
      rw [ite_self]
    · rw [show ((some (updRow d db (freshRow db tid)),
          ({ db with movies := db.movies ++ [updRow d db (freshRow db tid)], nextId := db.nextId + 1 } : DB)) :
          Option MovieRow × DB).2.movies =
          db.movies ++ [updRow d db (freshRow db tid)] from rfl]
      rw [List.countP_append]
      have hz : db.movies.countP (fun x => x.tmdb_id == tid) = 0 := by
        rw [List.countP_eq_zero]
        exact List.find?_eq_none.mp hfind
      rw [hz]
      simp [hw]

/-- C2: `external_id` uniquely determines a Movie row.  Every upsert
preserves the at-most-one-row-per-`tmdb_id` invariant, and an upsert whose
external id already has a row rewrites that row in place: the sequence of
`(internal_id, tmdb_id)` pairs of the store is untouched, so the row keeps
its internal id and no second row with that external id ever appears. -/
theorem upsert_unique_external_id (input : Option TmdbMovieData) (db : DB) (hwf : WF db) :
    WF (save input db).2 ∧
    (∀ (d : TmdbMovieData) (tid : Int) (m : MovieRow),
      input = some d → d.id = some tid → ¬ tid = 0 →
      db.movies.find? (fun x => x.tmdb_id == tid) = some m →
      (save input db).2.movies.map (fun x => (x.internal_id, x.tmdb_id)) =
        db.movies.map (fun x => (x.internal_id, x.tmdb_id))) := by
  constructor
  · match input with
    | none => exact hwf
    | some d =>
      cases hid : d.id with
      | none => simp only [save, hid]; exact hwf
      | some tid =>
        by_cases h0 : tid = 0
        · simp only [save, hid, if_pos h0]; exact hwf
        · cases hfind : db.movies.find? (fun x => x.tmdb_id == tid) with
          | some m =>
            have hm : m.tmdb_id = tid := by
              have := List.find?_some hfind
              simpa using this
            have hu : (updRow d db m).tmdb_id = tid := by rw [updRow_tmdb_id]; exact hm
            rw [save_found d db tid m hid h0 hfind]
            show (db.movies.map (fun x => if x.tmdb_id == tid then updRow d db m else x)).map
              (fun x => x.tmdb_id) |>.Nodup
            rw [map_replace_tmdb tid (updRow d db m) hu db.movies]
            exact hwf
          | none =>
            have hw : (updRow d db (freshRow db tid)).tmdb_id = tid := by
              rw [updRow_tmdb_id]; rfl
            rw [save_notfound d db tid hid h0 hfind]
            show ((db.movies ++ [updRow d db (freshRow db tid)]).map (fun x => x.tmdb_id)).Nodup
            rw [List.map_append]
            rw [List.nodup_append]
            refine ⟨hwf, by simp, ?_⟩
            intro a ha hb
            have hat : a = tid := by
              simpa [hw] using hb
            obtain ⟨x, hx, hxt⟩ := List.mem_map.mp ha
            have := List.find?_eq_none.mp hfind x hx
            apply this
            simp [hxt, hat]
  · intro d tid m hin hid h0 hfind
    subst hin
    have hm : m.tmdb_id = tid := by
      have := List.find?_some hfind
      simpa using this
    have hu : (updRow d db m).tmdb_id = tid := by rw [updRow_tmdb_id]; exact hm
    rw [save_found d db tid m hid h0 hfind]
    show (db.movies.map (fun x => if x.tmdb_id == tid then updRow d db m else x)).map
        (fun x => (x.internal_id, x.tmdb_id)) = _
    rw [List.map_map]
    apply List.map_congr_left
    intro x hx
    by_cases h : x.tmdb_id = tid
    · have hx_eq : x = m := eq_row_of_mem tid db.movies m x hwf hfind hx h
      simp [Function.comp, h, updRow_internal_id, updRow_tmdb_id, hx_eq, hm]
    · simp [Function.comp, h]

/-- C3: Genre linking on upsert is union-with-known-genres-only.  The
upsert never creates or deletes a `Genre` row (for any input whatsoever),
and the link set of the produced movie row is exactly the previously linked set
united with those derived payload genre ids that exist in the `Genre`
table — unknown ids are skipped, and nothing previously linked is removed. -/
theorem upsert_genre_links (d : TmdbMovieData) (db : DB) (tid : Int)
    (hid : d.id = some tid) (h0 : ¬ tid = 0) :
    (∀ (input : Option TmdbMovieData) (db2 : DB), (save input db2).2.genres = db2.genres) ∧
    (∀ m2 : MovieRow, (save (some d) db).1 = some m2 →
      ∀ g : Int, g ∈ m2.genres ↔
        g ∈ prevLinkedGenres db tid ∨
          (g ∈ derivedGenreIds d ∧ g ∈ db.genres.map (fun x => x.id))) := by
  constructor
  · intro input db2
    match input with
    | none => rfl
    | some d2 =>
      cases hid2 : d2.id with
      | none => simp [save, hid2]
      | some t2 =>
        by_cases h02 : t2 = 0
        · simp [save, hid2, h02]
        · cases hf2 : db2.movies.find? (fun x => x.tmdb_id == t2) with
          | some m => rw [save_found d2 db2 t2 m hid2 h02 hf2]
          | none => rw [save_notfound d2 db2 t2 hid2 h02 hf2]
  · intro m2 hm2 g
    cases hfind : db.movies.find? (fun x => x.tmdb_id == tid) with
    | some m =>
      rw [save_found d db tid m hid h0 hfind] at hm2
      have : m2 = updRow d db m := (Option.some.inj hm2).symm
      subst this
      rw [mem_updRow_genres]
      unfold prevLinkedGenres
      rw [hfind]
    | none =>
      rw [save_notfound d db tid hid h0 hfind] at hm2
      have : m2 = updRow d db (freshRow db tid) := (Option.some.inj hm2).symm
      subst this
      rw [mem_updRow_genres]
      unfold prevLinkedGenres
      rw [hfind]
      show g ∈ ([] : List Int) ∨ _ ↔ g ∈ ([] : List Int) ∨ _
      rfl

/-- C4: Upsert fails fast without partial write on a missing external id.
A `None` payload, or a payload whose `id` field is absent, makes
`save_movie_and_genres_to_db` return `None` with the store — movies,
genres, links, counter — completely unchanged; the function is total, so no
exception propagates. -/
theorem upsert_rejects_missing_id (db : DB) :
    save none db = (none, db) ∧
    ∀ d : TmdbMovieData, d.id = none → save (some d) db = (none, db) := by
  refine ⟨rfl, ?_⟩
  intro d hid
  simp [save, hid]

-- ## Serialisation, response envelopes, cache and provider client

/-- `GenreSerializer` output: `id` and `name`. -/
structure SerGenre where
  id : Int
  name : String
deriving Repr, DecidableEq

/-- `MovieSerializer` output (`core/serializers.py`): scalar movie fields
plus the nested genre rows. -/
structure SerMovie where
  id : Nat
  tmdb_id : Int
  title : String
  overview : String
  poster_path : String
  release_date : Option String
  popularity : Rat
  vote_average : Rat
  genres : List SerGenre
deriving Repr, DecidableEq

/-- `MovieSerializer(movie).data`: project the row and serialise its linked
genres (in genre-table order). -/
def serializeMovie (db : DB) (m : MovieRow) : SerMovie :=
  { id := m.internal_id, tmdb_id := m.tmdb_id, title := m.title, overview := m.overview
    poster_path := m.poster_path, release_date := m.release_date
    popularity := m.popularity, vote_average := m.vote_average
    genres := (db.genres.filter (fun g => decide (g.id ∈ m.genres))).map
      (fun g => { id := g.id, name := g.name }) }

/-- JSON-like payload values carried in the `data` field of responses: a
movie list, a single movie, the all-initial dict that
`MovieSerializer(None).data` yields (DRF raises nothing for a `None`
instance — its `.data` falls through to `get_initial()`, a dict with every
field at its initial value and `genres` equal to `[]`), null, or — as
produced when the `.data` of one response (the whole envelope dict: status,
message, code, data) is fed back in as the payload of another response — a
nested envelope. -/
inductive PVal where
  | movies : List SerMovie → PVal
  | movie : SerMovie → PVal
  | movieInitial : PVal
  | null : PVal
  | env : String → String → Option String → PVal → PVal
deriving Repr, DecidableEq

/-- `MovieSerializer(movie_obj).data` for the possibly-`None` object the
upsert returns: the serialized movie when an instance is present, the
`get_initial()` all-initial dict when it is `None`. -/
def serializeMovieOpt (db : DB) (r : Option MovieRow) : PVal :=
  match r with
  | some m => PVal.movie (serializeMovie db m)
  | none => PVal.movieInitial

/-- The uniform response envelope of `success_response` / `error_response`
(`core/views.py`): status discriminator, message, optional error code,
payload, HTTP status.  The `details` field is always `None` on the paths
modelled here and is elided. -/
structure Resp where
  status : String
  message : String
  code : Option String
  data : PVal
  http : Nat
deriving Repr, DecidableEq

def successResponse (message : String) (data : PVal) (http : Nat) : Resp :=
  { status := "success", message := message, code := none, data := data, http := http }

def errorResponse (message code : String) (http : Nat) : Resp :=
  { status := "error", message := message, code := some code, data := PVal.null, http := http }

/-- The DRF `.data` attribute of a `Response` built by the helpers: the
envelope dict itself, as a payload value. -/
def respData (r : Resp) : PVal := PVal.env r.status r.message r.code r.data

/-- The whole mutable server-side state: the relational store plus the two
cache key families the views use (`trending_movies` and
per-external-id `movie_detail_<tid>`). -/
structure Sys where
  db : DB
  trendingCache : Option (List SerMovie)
  detailCache : List (Int × PVal)
deriving Repr, DecidableEq

/-- `cache.get` for a detail key.  The cached detail payloads are dicts
(serialized movie or the all-initial dict), which are non-empty and hence
truthy, so the hit test of the view is presence. -/
def cacheGet (c : List (Int × PVal)) (k : Int) : Option PVal :=
  match c.find? (fun e => e.1 == k) with
  | some e => some e.2
  | none => none

/-- `cache.set` for a detail key: overwrite. -/
def cacheSet (c : List (Int × PVal)) (k : Int) (v : PVal) : List (Int × PVal) :=
  (k, v) :: c.filter (fun e => !(e.1 == k))

theorem cacheGet_cacheSet (c : List (Int × PVal)) (k : Int) (v : PVal) :
    cacheGet (cacheSet c k v) k = some v := by
  simp [cacheGet, cacheSet]

/-- The parsed JSON of a TMDb list endpoint: a `results` key that may be
absent.  An `Option TmdbListResp` argument stands for the outcome of
`_make_tmdb_request`, whose `none` is the collapsed unavailable signal
(HTTP error, connection error, timeout, other). -/
structure TmdbListResp where
  results : Option (List TmdbMovieData)
deriving Repr, DecidableEq

/-- `get_tmdb_trending_movies`: `data.get("results", []) if data else []`. -/
def getTmdbTrendingMovies (r : Option TmdbListResp) : List TmdbMovieData :=
  match r with
  | some d => d.results.getD []
  | none => []

/-- `get_tmdb_movie_recommendations`: same collapse of the `None` signal. -/
def getTmdbMovieRecommendations (r : Option TmdbListResp) : List TmdbMovieData :=
  match r with
  | some d => d.results.getD []
  | none => []

/-- `get_tmdb_movie_search_results`: same collapse of the `None` signal. -/
def getTmdbMovieSearchResults (r : Option TmdbListResp) : List TmdbMovieData :=
  match r with
  | some d => d.results.getD []
  | none => []

/-- `get_tmdb_movie_details`: returns the `_make_tmdb_request` result as
is — `None` stays `None`. -/
def getTmdbMovieDetails (r : Option TmdbMovieData) : Option TmdbMovieData := r

/-- The per-result upsert loop shared by the trending, recommendations and
search views: upsert every payload, collecting the rows that were produced
(`if movie_obj: local_movies.append(movie_obj)`). -/
def upsertAll (items : List TmdbMovieData) (db : DB) : List MovieRow × DB :=
  match items with
  | [] => ([], db)
  | t :: ts =>
    match save (some t) db with
    | (some m, db1) =>
      let p := upsertAll ts db1
      (m :: p.1, p.2)
    | (none, db1) => upsertAll ts db1

-- ## The view functions

/-- The cache-miss path of `TrendingMoviesView.get`: fetch, 503 when the
list is empty (provider unavailable and zero results are conflated), else
upsert each, serialise, populate the trending cache for an hour. -/
def trendingFetch (tr : Option TmdbListResp) (s : Sys) : Resp × Sys :=
  let tmdbMovies := getTmdbTrendingMovies tr
  if tmdbMovies.isEmpty then
    (errorResponse "Could not fetch trending movies." "TMDB_API_ERROR" 503, s)
  else
    let p := upsertAll tmdbMovies s.db
    let ser := p.1.map (serializeMovie p.2)
    (successResponse "Operation successful" (PVal.movies ser) 200,
     { s with db := p.2, trendingCache := some ser })

/-- `TrendingMoviesView.get`: serve from cache when the cached value is
truthy (a cached empty list is falsy in Python and re-fetches), else run
the fetch path. -/
def trendingView (tr : Option TmdbListResp) (s : Sys) : Resp × Sys :=
  match s.trendingCache with
  | some l =>
    if l.isEmpty then trendingFetch tr s
    else (successResponse "Operation successful" (PVal.movies l) 200, s)
  | none => trendingFetch tr s

/-- The result of a view call, instrumented with the number of provider
requests and of store lookups it made. -/
structure ViewOut where
  resp : Resp
  state : Sys
  providerCalls : Nat
  dbReads : Nat
deriving Repr, DecidableEq

/-- `MovieDetailByTmdbIdView.get`: cache hit returns the cached payload
directly; on miss, read the store by external id (caching on hit, 24h);
on store miss call the provider — `None` renders 404 (absence and
unavailability are indistinguishable by design), otherwise the payload is
upserted and the serializer output is cached and returned as a 200
success.  That holds even when the upsert rejects the payload and returns
`None`: `MovieSerializer(None).data` raises nothing in DRF — it falls back
to the all-initial `get_initial()` dict, which is likewise cached and
returned with a 200. -/
def detailView (prov : Option TmdbMovieData) (s : Sys) (tid : Int) : ViewOut :=
  match cacheGet s.detailCache tid with
  | some v =>
    { resp := successResponse "Operation successful" v 200
      state := s, providerCalls := 0, dbReads := 0 }
  | none =>
    match s.db.movies.find? (fun m => m.tmdb_id == tid) with
    | some m =>
      let v := PVal.movie (serializeMovie s.db m)
      { resp := successResponse "Operation successful" v 200
        state := { s with detailCache := cacheSet s.detailCache tid v }
        providerCalls := 0, dbReads := 1 }
    | none =>
      match getTmdbMovieDetails prov with
      | none =>
        { resp := errorResponse "Movie not found." "TMDB_MOVIE_NOT_FOUND" 404
          state := s, providerCalls := 1, dbReads := 1 }
      | some d =>
        match save (some d) s.db with
        | (r, db1) =>
          let v := serializeMovieOpt db1 r
          { resp := successResponse "Operation successful" v 200
            state := { s with db := db1, detailCache := cacheSet s.detailCache tid v }
            providerCalls := 1, dbReads := 1 }

/-- Python `str.strip()`: drop leading and trailing whitespace.  (Modelled
on the character list because the byte-position arithmetic of `String.trim`
does not reduce in the kernel; the semantics is the same.) -/
def pyStrip (s : String) : String :=
  ⟨((s.data.dropWhile Char.isWhitespace).reverse.dropWhile Char.isWhitespace).reverse⟩

/-- `MovieSearchView.get`: strip the query; reject a blank one with a 400
validation error before any provider call or upsert; otherwise search,
return an empty success for no results, else upsert and serialise. -/
def searchView (sr : Option TmdbListResp) (s : Sys) (q : String) : ViewOut :=
  let query := pyStrip q
  if query = "" then
    { resp := errorResponse "Search query parameter is required." "MISSING_QUERY" 400
      state := s, providerCalls := 0, dbReads := 0 }
  else
    let results := getTmdbMovieSearchResults sr
    if results.isEmpty then
      { resp := successResponse "No movies found for your query." (PVal.movies []) 200
        state := s, providerCalls := 1, dbReads := 0 }
    else
      let p := upsertAll results s.db
      { resp := successResponse "Operation successful" (PVal.movies (p.1.map (serializeMovie p.2))) 200
        state := { s with db := p.2 }, providerCalls := 1, dbReads := 0 }

-- ## Recommendation engine

/-- The genre-id set of the LIKED movies of a user
(`UserRecommendationsView.get`, the two nested loops over
`interaction.movie.genres.all()` into a Python set). -/
def likedGenreIds (db : DB) (uid : Nat) : List Int :=
  (db.interactions.filter
      (fun i => decide (i.user = uid) && decide (i.itype = InteractionType.liked))).foldl
    (fun acc i =>
      match db.movies.find? (fun m => m.internal_id == i.movie) with
      | some m => addGenreLinks acc m.genres
      | none => acc) []

/-- `request.user.interactions.values_list("movie__id", flat=True)`: every
movie id the user has any interaction with, of any type. -/
def interactedMovieIds (db : DB) (uid : Nat) : List Nat :=
  (db.interactions.filter (fun i => decide (i.user = uid))).map (fun i => i.movie)

/-- The `order_by("-popularity")` comparison: popularity descending. -/
def popGE (a b : MovieRow) : Prop := b.popularity ≤ a.popularity

instance : DecidableRel popGE :=
  fun a b => inferInstanceAs (Decidable (b.popularity ≤ a.popularity))

instance : IsTotal MovieRow popGE := ⟨fun a b => le_total b.popularity a.popularity⟩

instance : IsTrans MovieRow popGE := ⟨fun _ _ _ hab hbc => le_trans hbc hab⟩

/-- The main recommendation query: movies whose genre set meets the liked
set, excluding every movie the user interacted with, distinct rows, sorted
by popularity descending, truncated to the top 20. -/
def recommendationList (db : DB) (uid : Nat) : List MovieRow :=
  let liked := likedGenreIds db uid
  let interacted := interactedMovieIds db uid
  let cands := db.movies.filter
    (fun m => m.genres.any (fun g => decide (g ∈ liked)) && !(decide (m.internal_id ∈ interacted)))
  (List.insertionSort popGE cands).take 20

/-- `UserRecommendationsView.get`: an empty liked-genre set falls back to
the trending view, re-wrapping the entire trending response envelope
(`TrendingMoviesView().get(request).data`) as the new `data`; otherwise the
local recommendation query is served without touching cache or provider. -/
def userRecommendationsView (tr : Option TmdbListResp) (s : Sys) (uid : Nat) : Resp × Sys :=
  let liked := likedGenreIds s.db uid
  if liked.isEmpty then
    let p := trendingView tr s
    (successResponse "No specific preferences yet, showing trending movies." (respData p.1) 200, p.2)
  else
    (successResponse "Personalized recommendations generated."
      (PVal.movies ((recommendationList s.db uid).map (serializeMovie s.db))) 200, s)

-- ## The two admin predicates

/-- A request user as the permission classes see it: authentication flag,
the superuser flag, and the role names from the role table. -/
structure UserRec where
  isAuthenticated : Bool
  isSuperuser : Bool
  roles : List String
deriving Repr, DecidableEq

/-- `IsAdminUser.has_permission` from `core/permissions.py`: authenticated
and holding the `admin` role in the role table. -/
def permissionsIsAdmin (u : UserRec) : Bool :=
  u.isAuthenticated && decide ("admin" ∈ u.roles)

/-- `IsAdminUser.has_permission` redefined in `core/views.py` (the version
the admin endpoints consume, as the later definition shadows the imported
one): authenticated and carrying the `is_superuser` flag. -/
def viewsIsAdmin (u : UserRec) : Bool :=
  u.isAuthenticated && u.isSuperuser

-- ## Claim theorems for the views and predicates

/-- C5: Detail-path cache correctness.  For an external id not in cache, a
detail request that completes successfully stores its serialized payload
(as produced by the serializer, including the all-initial dict the
serializer yields when the upsert rejected the provider payload) under the
cache key of that id, and an immediately following second request (any
provider behaviour, no intervening expiry or mutation) returns the
identical payload with zero provider calls and zero store reads, leaving
the state untouched. -/
theorem detail_cache_correct (prov prov2 : Option TmdbMovieData) (s : Sys) (tid : Int)
    (hmiss : cacheGet s.detailCache tid = none)
    (hok : (detailView prov s tid).resp.status = "success") :
    ∃ v : PVal,
      (detailView prov s tid).resp = successResponse "Operation successful" v 200 ∧
      cacheGet (detailView prov s tid).state.detailCache tid = some v ∧
      detailView prov2 (detailView prov s tid).state tid =
        { resp := successResponse "Operation successful" v 200
          state := (detailView prov s tid).state, providerCalls := 0, dbReads := 0 } := by
  cases hfind : s.db.movies.find? (fun m => m.tmdb_id == tid) with
  | some m =>
    have h1 : detailView prov s tid =
        { resp := successResponse "Operation successful" (PVal.movie (serializeMovie s.db m)) 200
          state := { s with detailCache := cacheSet s.detailCache tid (PVal.movie (serializeMovie s.db m)) }
          providerCalls := 0, dbReads := 1 } := by
      simp only [detailView, hmiss, hfind]
    refine ⟨PVal.movie (serializeMovie s.db m), ?_, ?_, ?_⟩
    · rw [h1]
    · rw [h1]
      exact cacheGet_cacheSet s.detailCache tid (PVal.movie (serializeMovie s.db m))
    · rw [h1]
      simp only [detailView, cacheGet_cacheSet]
  | none =>
    cases hp : prov with
    | none =>
      subst hp
      exfalso
      have h1 : detailView none s tid =
          { resp := errorResponse "Movie not found." "TMDB_MOVIE_NOT_FOUND" 404
            state := s, providerCalls := 1, dbReads := 1 } := by
        simp only [detailView, getTmdbMovieDetails, hmiss, hfind]
      rw [h1] at hok
      simp [errorResponse] at hok
    | some d =>
      subst hp
      cases hs : save (some d) s.db with
      | mk r db1 =>
        have h1 : detailView (some d) s tid =
            { resp := successResponse "Operation successful" (serializeMovieOpt db1 r) 200
              state := { s with db := db1, detailCache := cacheSet s.detailCache tid (serializeMovieOpt db1 r) }
              providerCalls := 1, dbReads := 1 } := by
          simp only [detailView, getTmdbMovieDetails, hmiss, hfind, hs]
        refine ⟨serializeMovieOpt db1 r, ?_, ?_, ?_⟩
        · rw [h1]
        · rw [h1]
          exact cacheGet_cacheSet s.detailCache tid (serializeMovieOpt db1 r)
        · rw [h1]
          simp only [detailView, cacheGet_cacheSet]

/-- C6: Personalized recommendations.  With a non-empty liked-genre set the
view serves exactly the local recommendation query, whose output
consists of movies whose genre set meets the liked set, excludes every
movie the user has any interaction with, has no duplicate rows, is sorted
by popularity descending, and has at most 20 entries. -/
theorem user_recommendations_correct (tr : Option TmdbListResp) (s : Sys) (uid : Nat)
    (hnd : s.db.movies.Nodup)
    (hne : (likedGenreIds s.db uid).isEmpty = false) :
    userRecommendationsView tr s uid =
      (successResponse "Personalized recommendations generated."
        (PVal.movies ((recommendationList s.db uid).map (serializeMovie s.db))) 200, s) ∧
    (∀ m ∈ recommendationList s.db uid,
      (∃ g, g ∈ m.genres ∧ g ∈ likedGenreIds s.db uid) ∧
      m.internal_id ∉ interactedMovieIds s.db uid) ∧
    (recommendationList s.db uid).Nodup ∧
    (recommendationList s.db uid).Sorted popGE ∧
    (recommendationList s.db uid).length ≤ 20 := by
  refine ⟨?_, ?_, ?_, ?_, ?_⟩
  · unfold userRecommendationsView
    simp [hne]
  · intro m hm
    unfold recommendationList at hm
    have hm1 : m ∈ List.insertionSort popGE (s.db.movies.filter
        (fun m => m.genres.any (fun g => decide (g ∈ likedGenreIds s.db uid)) &&
          !(decide (m.internal_id ∈ interactedMovieIds s.db uid)))) :=
      List.mem_of_mem_take hm
    have hm2 := (List.perm_insertionSort popGE _).mem_iff.mp hm1
    have hm3 := List.mem_filter.mp hm2
    obtain ⟨_, hpred⟩ := hm3
    rw [Bool.and_eq_true] at hpred
    obtain ⟨hg, hi⟩ := hpred
    constructor
    · rw [List.any_eq_true] at hg
      obtain ⟨g, hgm, hgl⟩ := hg
      exact ⟨g, hgm, of_decide_eq_true hgl⟩
    · rw [Bool.not_eq_eq_eq_not, Bool.not_true] at hi
      exact of_decide_eq_false hi
  · unfold recommendationList
    refine List.Nodup.sublist (List.take_sublist _ _) ?_
    exact ((List.perm_insertionSort popGE _).nodup_iff).mpr (hnd.filter _)
  · unfold recommendationList
    exact List.Pairwise.sublist (List.take_sublist _ _) (List.sorted_insertionSort popGE _)
  · unfold recommendationList
    exact List.length_take_le _ _

-- Concrete sample data used by the closed witnesses and counterexamples.

/-- A seeded genre row. -/
def gHorror : GenreRow := { id := 27, name := "Horror" }

/-- A store with one seeded genre and no movies. -/
def dbSample : DB := { movies := [], genres := [gHorror], interactions := [], nextId := 0 }

/-- A provider payload with external id 42 linking one known (27) and one
unknown (99) genre id, with an empty release-date string. -/
def payloadSample : TmdbMovieData :=
  { id := some 42, title := some "T", overview := none, poster_path := none
    release_date := some "", popularity := some 2, vote_average := none
    genre_ids := [27, 99], genres := [] }

/-- The row `save` produces for `payloadSample` over `dbSample`. -/
def producedRow : MovieRow :=
  { internal_id := 0, tmdb_id := 42, title := "T", overview := "", poster_path := ""
    release_date := none, popularity := 2, vote_average := 0, genres := [27] }

/-- An existing row for external id 42. -/
def movieRow42 : MovieRow :=
  { internal_id := 0, tmdb_id := 42, title := "Old", overview := "", poster_path := ""
    release_date := none, popularity := 1, vote_average := 0, genres := [27] }

/-- A store already holding `movieRow42`. -/
def dbSample2 : DB := { movies := [movieRow42], genres := [gHorror], interactions := [], nextId := 1 }

/-- A payload whose `id` field is absent. -/
def noIdPayload : TmdbMovieData :=
  { id := none, title := some "X", overview := none, poster_path := none
    release_date := none, popularity := none, vote_average := none
    genre_ids := [], genres := [] }

/-- System state over `dbSample2` with empty caches. -/
def sys5 : Sys := { db := dbSample2, trendingCache := none, detailCache := [] }

theorem upsert_idempotent_witness :
    WF dbSample ∧
    (save (some payloadSample) ((save (some payloadSample) dbSample).2) =
        save (some payloadSample) dbSample ∧
      (save (some payloadSample) dbSample).2.movies.countP (fun m => m.tmdb_id == 42) = 1) :=
  ⟨by decide, upsert_idempotent payloadSample dbSample 42 (by decide) rfl (by decide)⟩

theorem upsert_unique_external_id_witness :
    WF dbSample2 ∧ WF (save (some payloadSample) dbSample2).2 ∧
    (save (some payloadSample) dbSample2).2.movies.map (fun x => (x.internal_id, x.tmdb_id)) =
      dbSample2.movies.map (fun x => (x.internal_id, x.tmdb_id)) :=
  ⟨by decide,
   (upsert_unique_external_id (some payloadSample) dbSample2 (by decide)).1,
   (upsert_unique_external_id (some payloadSample) dbSample2 (by decide)).2
     payloadSample 42 movieRow42 rfl rfl (by decide) (by decide)⟩

theorem upsert_genre_links_witness :
    (save (some payloadSample) dbSample).2.genres = dbSample.genres ∧
    (27 ∈ producedRow.genres ↔
      27 ∈ prevLinkedGenres dbSample 42 ∨
        (27 ∈ derivedGenreIds payloadSample ∧
          27 ∈ dbSample.genres.map (fun x => x.id))) :=
  ⟨(upsert_genre_links payloadSample dbSample 42 rfl (by decide)).1 (some payloadSample) dbSample,
   (upsert_genre_links payloadSample dbSample 42 rfl (by decide)).2 producedRow (by decide) 27⟩

theorem upsert_rejects_missing_id_witness :
    save none dbSample = (none, dbSample) ∧
    save (some noIdPayload) dbSample = (none, dbSample) :=
  ⟨(upsert_rejects_missing_id dbSample).1,
   (upsert_rejects_missing_id dbSample).2 noIdPayload rfl⟩

theorem detail_cache_correct_witness :
    cacheGet sys5.detailCache 42 = none ∧
    (∃ v : PVal,
      (detailView none sys5 42).resp = successResponse "Operation successful" v 200 ∧
      cacheGet (detailView none sys5 42).state.detailCache 42 = some v ∧
      detailView none (detailView none sys5 42).state 42 =
        { resp := successResponse "Operation successful" v 200
          state := (detailView none sys5 42).state, providerCalls := 0, dbReads := 0 }) :=
  ⟨rfl, detail_cache_correct none none sys5 42 rfl (by decide)⟩

-- ## C6 witness data

/-- A liked movie (genre 27, popularity 5) interacted with by user 7. -/
def movieA : MovieRow :=
  { internal_id := 0, tmdb_id := 42, title := "A", overview := "", poster_path := ""
    release_date := none, popularity := 5, vote_average := 0, genres := [27] }

/-- A second genre-27 movie (popularity 3) with no interactions. -/
def movieB : MovieRow :=
  { internal_id := 1, tmdb_id := 43, title := "B", overview := "", poster_path := ""
    release_date := none, popularity := 3, vote_average := 0, genres := [27] }

/-- A store where user 7 has LIKED `movieA`. -/
def db6 : DB :=
  { movies := [movieA, movieB], genres := [gHorror]
    interactions := [{ user := 7, movie := 0, itype := InteractionType.liked }]
    nextId := 2 }

/-- System state over `db6` with empty caches. -/
def sys6 : Sys := { db := db6, trendingCache := none, detailCache := [] }

theorem user_recommendations_correct_witness :
    (sys6.db.movies.Nodup ∧ (likedGenreIds sys6.db 7).isEmpty = false) ∧
    userRecommendationsView none sys6 7 =
      (successResponse "Personalized recommendations generated."
        (PVal.movies ((recommendationList sys6.db 7).map (serializeMovie sys6.db))) 200, sys6) ∧
    (recommendationList sys6.db 7).Nodup ∧
    (recommendationList sys6.db 7).Sorted popGE ∧
    (recommendationList sys6.db 7).length ≤ 20 ∧
    ((∃ g, g ∈ movieB.genres ∧ g ∈ likedGenreIds sys6.db 7) ∧
      movieB.internal_id ∉ interactedMovieIds sys6.db 7) :=
  ⟨⟨by decide, by decide⟩,
   (user_recommendations_correct none sys6 7 (by decide) (by decide)).1,
   (user_recommendations_correct none sys6 7 (by decide) (by decide)).2.2.1,
   (user_recommendations_correct none sys6 7 (by decide) (by decide)).2.2.2.1,
   (user_recommendations_correct none sys6 7 (by decide) (by decide)).2.2.2.2,
   (user_recommendations_correct none sys6 7 (by decide) (by decide)).2.1 movieB (by decide)⟩

-- ## C7: the fallback path re-wraps the trending envelope

/-- A serialized movie sitting in the trending cache. -/
def sampleSerMovie : SerMovie :=
  { id := 0, tmdb_id := 10, title := "A", overview := "", poster_path := ""
    release_date := none, popularity := 1, vote_average := 1, genres := [] }

/-- A state with a warm trending cache and a user (id 3) with no
interactions at all, hence zero LIKED interactions. -/
def fallbackSys : Sys :=
  { db := { movies := [], genres := [], interactions := [], nextId := 0 }
    trendingCache := some [sampleSerMovie], detailCache := [] }

/-- C7 (code bug): for a user with zero LIKED interactions the fallback
does not return the trending output verbatim.  It feeds the trending
`.data` of the trending response — the whole envelope dict — into `success_response`
again, so the returned `data` field is a nested envelope
`env "success" "Operation successful" none (movies ...)` instead of the
own `data` field `movies ...` of the trending endpoint; the two payloads
differ. -/
theorem userRec_fallback_nests_envelope :
    userRecommendationsView none fallbackSys 3 =
      (successResponse "No specific preferences yet, showing trending movies."
        (PVal.env "success" "Operation successful" none (PVal.movies [sampleSerMovie])) 200,
       fallbackSys) ∧
    trendingView none fallbackSys =
      (successResponse "Operation successful" (PVal.movies [sampleSerMovie]) 200, fallbackSys) ∧
    ¬ (userRecommendationsView none fallbackSys 3).1.data =
        (trendingView none fallbackSys).1.data := by
  decide

-- ## C8: provider-client signalling

/-- C8 counterexample: the three list fetchers map the unavailable signal
(`None` from `_make_tmdb_request`) to the very value a successful
empty-results response yields, so callers cannot distinguish the two. -/
theorem tmdb_unavailable_indistinguishable :
    getTmdbTrendingMovies none = getTmdbTrendingMovies (some { results := some [] }) ∧
    getTmdbMovieRecommendations none = getTmdbMovieRecommendations (some { results := some [] }) ∧
    getTmdbMovieSearchResults none = getTmdbMovieSearchResults (some { results := some [] }) :=
  ⟨rfl, rfl, rfl⟩

/-- C8 amended: only the detail fetch preserves the distinct unavailable
signal (`None`); the trending, recommendations and search fetchers default
a missing `results` key to the empty list but also collapse the unavailable
signal to that same empty list. -/
theorem tmdb_fetch_signalling :
    getTmdbMovieDetails none = none ∧
    (∀ d : TmdbMovieData, (getTmdbMovieDetails (some d)).isSome = true) ∧
    getTmdbTrendingMovies none = [] ∧
    getTmdbMovieRecommendations none = [] ∧
    getTmdbMovieSearchResults none = [] ∧
    (∀ r : TmdbListResp,
      getTmdbTrendingMovies (some r) = r.results.getD [] ∧
      getTmdbMovieRecommendations (some r) = r.results.getD [] ∧
      getTmdbMovieSearchResults (some r) = r.results.getD []) :=
  ⟨rfl, fun _ => rfl, rfl, rfl, rfl, fun _ => ⟨rfl, rfl, rfl⟩⟩

-- ## C9: empty-search-query validation

/-- C9: a query that strips to the empty string yields the 400
`MISSING_QUERY` error envelope with no provider call and an unchanged
state; any other query skips the validation branch — the provider is
called exactly once and the response never carries the validation code. -/
theorem search_empty_query_validation (sr : Option TmdbListResp) (s : Sys) (q : String) :
    (pyStrip q = "" →
      searchView sr s q =
        { resp := errorResponse "Search query parameter is required." "MISSING_QUERY" 400
          state := s, providerCalls := 0, dbReads := 0 }) ∧
    (¬ pyStrip q = "" →
      (searchView sr s q).providerCalls = 1 ∧
      ¬ (searchView sr s q).resp.code = some "MISSING_QUERY") := by
  constructor
  · intro h
    simp [searchView, h]
  · intro h
    simp only [searchView]
    rw [if_neg h]
    by_cases hr : (getTmdbMovieSearchResults sr).isEmpty = true
    · rw [if_pos hr]
      exact ⟨rfl, by simp [successResponse]⟩
    · rw [if_neg hr]
      exact ⟨rfl, by simp [successResponse]⟩

theorem search_empty_query_validation_witness :
    (pyStrip "  " = "" ∧
      searchView none sys5 "  " =
        { resp := errorResponse "Search query parameter is required." "MISSING_QUERY" 400
          state := sys5, providerCalls := 0, dbReads := 0 }) ∧
    (¬ pyStrip " hi " = "" ∧
      (searchView none sys5 " hi ").providerCalls = 1 ∧
      ¬ (searchView none sys5 " hi ").resp.code = some "MISSING_QUERY") :=
  ⟨⟨by decide, (search_empty_query_validation none sys5 "  ").1 (by decide)⟩,
   ⟨by decide, (search_empty_query_validation none sys5 " hi ").2 (by decide)⟩⟩

-- ## C10: the two admin predicates

/-- An authenticated user holding the admin role but not the superuser
flag. -/
def roleAdminUser : UserRec :=
  { isAuthenticated := true, isSuperuser := false, roles := ["admin"] }

/-- An authenticated superuser who also holds the admin role. -/
def superAdminUser : UserRec :=
  { isAuthenticated := true, isSuperuser := true, roles := ["admin"] }

/-- C10 counterexample: the role-table check (`core/permissions.py`) and
the superuser-flag check (`core/views.py`) disagree on an authenticated
user who holds the admin role without the superuser flag, so the two
coexisting definitions are not extensionally equal. -/
theorem admin_predicates_disagree :
    permissionsIsAdmin roleAdminUser = true ∧ viewsIsAdmin roleAdminUser = false := by
  decide

/-- C10 amended: the two coexisting admin predicates agree on a user
exactly when the user is unauthenticated or the role-table fact matches the
superuser flag; the admin endpoints consume the views-level superuser
check. -/
theorem admin_predicates_agree_iff (u : UserRec) :
    permissionsIsAdmin u = viewsIsAdmin u ↔
      (u.isAuthenticated = false ∨ decide ("admin" ∈ u.roles) = u.isSuperuser) := by
  rcases u with ⟨a, sup, roles⟩
  cases a <;> simp [permissionsIsAdmin, viewsIsAdmin]

theorem admin_predicates_agree_iff_witness :
    permissionsIsAdmin superAdminUser = viewsIsAdmin superAdminUser ↔
      (superAdminUser.isAuthenticated = false ∨
        decide ("admin" ∈ superAdminUser.roles) = superAdminUser.isSuperuser) :=
  admin_predicates_agree_iff superAdminUser

end MovieApp


